import Mathlib

/-!
Verification of the oracle gating / lockout subsystem of `redteamoracle`
(`src/redteamoracle/oracle.py`) and of the AI-provider factory
(`src/redteamoracle/ai/__init__.py`), as a shallow embedding.

Modelling conventions:
* `datetime` values are naturals (ticks on the local clock); `timedelta(hours=24)`
  is the constant `hours24`.
* `datetime.isoformat` / `datetime.fromisoformat` are modelled by a decimal
  rendering of the tick count: a serialized timestamp is its big-endian digit
  list (a string over the digit alphabet).  `fromisoformat` accepts exactly the
  well-formed renderings and fails (Python: raises `ValueError`) on anything
  else, mirroring that Python's parser rejects malformed strings.
* A JSON record is an association list from string keys to `JVal` values;
  `dget`/`dset`/`ddel` are Python dict lookup, assignment and deletion.
* The state file is `FileContent`: absent, present-but-unparsable (`corrupt`),
  or a parsed JSON record.  `_load_state` swallows parse failures.
* Randomness (`random.random`, `random.choice`) is passed in explicitly: the
  dice sample is a rational in `[0,1)` and choices are indices.
* A Python exception is the `.error` branch of `Except String`.
-/

namespace RedTeamOracle

/-- View of an `Except` as a sum, giving it decidable equality. -/
def exceptToSum {ε α : Type} : Except ε α → ε ⊕ α
  | .error e => .inl e
  | .ok a => .inr a

instance {ε α : Type} [DecidableEq ε] [DecidableEq α] : DecidableEq (Except ε α) :=
  fun a b =>
    decidable_of_iff (exceptToSum a = exceptToSum b)
      (by cases a <;> cases b <;> simp [exceptToSum])

/-! ### Timestamps and their ISO serialization -/

/-- `timedelta(hours=24)` measured in seconds (the clock tick of the model). -/
def hours24 : Nat := 24 * 60 * 60

/-- Little-endian decimal digits of `n`, with explicit fuel so that the
definition is structurally recursive and kernel-reducible. -/
def digitsLE (fuel n : Nat) : List Nat :=
  match fuel, n with
  | _, 0 => []
  | 0, _ + 1 => []
  | f + 1, m + 1 => (m + 1) % 10 :: digitsLE f ((m + 1) / 10)

/-- Value of a little-endian digit list. -/
def ofDigitsLE : List Nat → Nat
  | [] => 0
  | d :: ds => d + 10 * ofDigitsLE ds

/-- `datetime.isoformat`: the canonical rendering of a timestamp, modelled as
its big-endian decimal digit string. -/
def isoformat (t : Nat) : List Nat :=
  (digitsLE t t).reverse

/-- `datetime.fromisoformat`: parses a rendering back to a timestamp; returns
`none` (Python: raises `ValueError`) unless the string is a well-formed
rendering (digits only, no leading zero). -/
def fromisoformat (s : List Nat) : Option Nat :=
  if (∀ d ∈ s, d < 10) ∧ s.head? ≠ some 0 then some (ofDigitsLE s.reverse)
  else none

/-! ### JSON records (Python dicts) and the state file -/

/-- A JSON value as stored in the state file: a string (over the digit-string
model used for timestamps) or any other JSON payload, kept abstract. -/
inductive JVal where
  | str : List Nat → JVal
  | other : Int → JVal
  deriving DecidableEq

/-- A JSON object: an association list of keys to values. -/
abbrev Rec := List (String × JVal)

/-- Python dict lookup (`state[k]` guarded by `k in state`). -/
def dget : Rec → String → Option JVal
  | [], _ => none
  | (k', v) :: rest, k => if k' = k then some v else dget rest k

/-- Python `k in state`. -/
def dmem (r : Rec) (k : String) : Bool :=
  (dget r k).isSome

/-- Python dict assignment `state[k] = v`: replaces the entry in place when
the key is present, appends otherwise. -/
def dset : Rec → String → JVal → Rec
  | [], k, v => [(k, v)]
  | (k', u) :: rest, k, v =>
    if k' = k then (k, v) :: rest else (k', u) :: dset rest k v

/-- Python `del state[k]` / `state.pop(k, None)`. -/
def ddel : Rec → String → Rec
  | [], _ => []
  | (k', v) :: rest, k => if k' = k then ddel rest k else (k', v) :: ddel rest k

/-- The on-disk state file `~/.redteamoracle/oracle_state.json`. -/
inductive FileContent where
  | absent
  | corrupt
  | json : Rec → FileContent
  deriving DecidableEq

/-! ### Oracle state operations (`oracle.py`) -/

/-- `_load_state`: reads the state file; a missing or unparsable file yields
the empty record (the `except Exception: pass` around `json.loads`). -/
def load_state : FileContent → Rec
  | .json r => r
  | _ => []

/-- `DOOM_PROBABILITY = 0.42`. -/
def DOOM_PROBABILITY : ℚ := 42 / 100

/-- `_roll_dice`: `random.random() < DOOM_PROBABILITY`, with the uniform
sample in `[0,1)` passed in explicitly. -/
def roll_dice (sample : ℚ) : Bool :=
  decide (sample < DOOM_PROBABILITY)

/-- `_is_locked_out`: returns the expiry if a future lockout is stored, lazily
deleting an expired one; a `locked_until` value that fails timestamp parsing
raises (`.error`). The second component is the state file after the call. -/
def is_locked_out (now : Nat) (fs : FileContent) : Except String (Option Nat × FileContent) :=
  let state := load_state fs
  match dget state "locked_until" with
  | none => .ok (none, fs)
  | some (.str s) =>
    match fromisoformat s with
    | none => .error "ValueError: invalid isoformat string"
    | some lockedUntil =>
      if now < lockedUntil then .ok (some lockedUntil, fs)
      else .ok (none, .json (ddel state "locked_until"))
  | some (.other _) => .error "TypeError: fromisoformat argument must be a string"

/-- `_set_lockout`: stores `now + 24h` under `locked_until`, persists, and
returns the expiry together with the new state file. -/
def set_lockout (now : Nat) (fs : FileContent) : Nat × FileContent :=
  let state := load_state fs
  let lockedUntil := now + hours24
  (lockedUntil, .json (dset state "locked_until" (.str (isoformat lockedUntil))))

/-- `_clear_lockout`: pops `locked_until` (if present) and persists. -/
def clear_lockout (fs : FileContent) : FileContent :=
  .json (ddel (load_state fs) "locked_until")

/-- `LAZY_QUESTIONS` from `oracle.py`. -/
def LAZY_QUESTIONS : List String :=
  [ "What is the color of the sky?",
    "How many legs does a dog have?",
    "What sound does a cow make?",
    "Is water wet?",
    "What comes after the number 2?",
    "If you have 1 apple and eat it, how many apples do you have?",
    "What is 1 + 1?",
    "Does the sun rise in the morning or at night?",
    "What shape is a circle?",
    "How many days are in a week?",
    "If it\x27s raining outside, is it wet or dry?",
    "What do you call a male chicken?",
    "What color is a red traffic light?",
    "In which direction does the Earth spin? (Don\x27t overthink it.)",
    "What do you put in a toaster to make toast?" ]

/-- Outcome of one `consult_oracle` invocation: the returned boolean, the
state file afterwards, whether the dice were rolled, whether the provider was
consulted, the displayed answer, and the expiry of a newly installed lockout. -/
structure ConsultResult where
  allowed : Bool
  file : FileContent
  rolled : Bool
  asked : Bool
  answer : Option String
  lockedUntil : Option Nat
  deriving DecidableEq

/-- `consult_oracle`: the main gate.  `sample` is the dice roll, `qidx` the
random index used by `random.choice(LAZY_QUESTIONS)`, and `ask` the provider
capability (which may raise).  Raises only if reading the lockout raises. -/
def consult_oracle (now : Nat) (sample : ℚ) (qidx : Nat)
    (ask : String → Except String String) (fs : FileContent) :
    Except String ConsultResult :=
  match is_locked_out now fs with
  | .error e => .error e
  | .ok (some _, fs₁) => .ok ⟨false, fs₁, false, false, none, none⟩
  | .ok (none, fs₁) =>
    let doomed := roll_dice sample
    if doomed = false then
      .ok ⟨true, fs₁, true, false, none, none⟩
    else
      let question := LAZY_QUESTIONS.getD (qidx % LAZY_QUESTIONS.length) ""
      let answer :=
        match ask question with
        | .ok a => a
        | .error e => "[The AI was also having a bad day: " ++ e ++ "]"
      let res := set_lockout now fs₁
      .ok ⟨false, res.2, true, true, some answer, some res.1⟩

/-! ### The AI provider module (`ai/__init__.py`) -/

/-- A constructed provider: the variant together with its connection
parameters, as produced by `build_provider`. -/
inductive Provider where
  | ollama (base_url model : String)
  | lmstudio (base_url model : String)
  | openai (api_key model : String)
  | claude (api_key model : String)
  | offline
  deriving DecidableEq

/-- Python `str.lower()` (ASCII), modelled characterwise over the character
list so that it is kernel-reducible. -/
def pyLower (s : String) : String :=
  ⟨s.toList.map Char.toLower⟩

/-- Python truthiness of an `Optional[str]` (`if not api_key: ...`): `None`
and the empty string are falsy. -/
def strTruthy : Option String → Bool
  | none => false
  | some s => decide (s ≠ "")

/-- The kwargs-defaulting pattern `if x: kwargs["x"] = x` combined with the
constructor default: a falsy override leaves the default in place. -/
def pick (o : Option String) (d : String) : String :=
  match o with
  | none => d
  | some s => if s = "" then d else s

/-- `base_url.rstrip("/")` in the local-HTTP provider constructors. -/
def rstripSlash (s : String) : String :=
  ⟨(s.toList.reverse.dropWhile (· = '/')).reverse⟩

/-- `build_provider`: the factory.  A raised `ValueError` is the `.error`
branch carrying the exception message. -/
def build_provider (provider : String) (api_key base_url model : Option String) :
    Except String Provider :=
  let p := pyLower provider
  if p = "ollama" then
    .ok (.ollama (rstripSlash (pick base_url "http://localhost:11434")) (pick model "llama3"))
  else if p = "lmstudio" ∨ p = "lm_studio" ∨ p = "lm-studio" then
    .ok (.lmstudio (rstripSlash (pick base_url "http://localhost:1234")) (pick model "local-model"))
  else if p = "openai" ∨ p = "chatgpt" then
    if strTruthy api_key = false then
      .error "OpenAI provider requires an API key (--api-key or OPENAI_API_KEY env var)"
    else .ok (.openai (api_key.getD "") (pick model "gpt-4o-mini"))
  else if p = "claude" ∨ p = "anthropic" then
    if strTruthy api_key = false then
      .error "Claude provider requires an API key (--api-key or ANTHROPIC_API_KEY env var)"
    else .ok (.claude (api_key.getD "") (pick model "claude-haiku-4-5-20251001"))
  else if p = "offline" ∨ p = "none" ∨ p = "" then
    .ok .offline
  else
    .error ("Unknown AI provider: \x27" ++ provider ++
      "\x27. Choose from: ollama, lmstudio, openai/chatgpt, claude/anthropic, offline")

/-- `OfflineProvider.CANNED_ANSWERS`. -/
def CANNED_ANSWERS : List String :=
  [ "After extensive analysis across my vast neural architecture... yes.",
    "The answer, which I arrived at after considerable deliberation, is: 4.",
    "Affirmative. My confidence level is 100%. This was not a close call.",
    "According to all known laws of aviation... yes.",
    "I\x27ve run 47 simulations. The answer is blue.",
    "My training data of 500 billion tokens confirms: moo.",
    "Technically, from a philosophical standpoint, it depends. But also yes.",
    "The short answer is yes. The long answer is also yes, but longer." ]

/-- `OfflineProvider.ask`: `random.choice(self.CANNED_ANSWERS)`, with the
random-source state represented by the index it yields; the question is
ignored, no I/O is performed and nothing is raised (the result is a plain
string, not an `Except`). -/
def offline_ask (ridx : Nat) (question : String) : String :=
  CANNED_ANSWERS.getD (ridx % CANNED_ANSWERS.length) ""

/-! ### Serialization lemmas -/

theorem digitsLE_zero (f : Nat) : digitsLE f 0 = [] := by
  cases f <;> rfl

theorem digitsLE_all_lt (f n : Nat) : ∀ d ∈ digitsLE f n, d < 10 := by
  induction f generalizing n with
  | zero => cases n <;> simp [digitsLE]
  | succ f ih =>
    cases n with
    | zero => simp [digitsLE]
    | succ m =>
      intro d hd
      rw [digitsLE] at hd
      rcases List.mem_cons.mp hd with h | h
      · subst h; exact Nat.mod_lt _ (by norm_num)
      · exact ih _ d h

theorem ofDigitsLE_digitsLE (f n : Nat) (h : n ≤ f) : ofDigitsLE (digitsLE f n) = n := by
  induction f generalizing n with
  | zero =>
    interval_cases n
    simp [digitsLE, ofDigitsLE]
  | succ f ih =>
    cases n with
    | zero => simp [digitsLE, ofDigitsLE]
    | succ m =>
      have hq : (m + 1) / 10 ≤ f := by
        have := Nat.div_lt_self (Nat.succ_pos m) (by norm_num : 1 < 10)
        omega
      rw [digitsLE, ofDigitsLE, ih _ hq]
      exact Nat.mod_add_div (m + 1) 10

theorem digitsLE_getLast? (f n : Nat) (h : n ≤ f) (hn : n ≠ 0) :
    ∃ d, (digitsLE f n).getLast? = some d ∧ d ≠ 0 := by
  induction f generalizing n with
  | zero => omega
  | succ f ih =>
    cases n with
    | zero => omega
    | succ m =>
      rw [digitsLE]
      by_cases hq : (m + 1) / 10 = 0
      · have hlt : m + 1 < 10 := by
          rcases Nat.lt_or_ge (m + 1) 10 with h10 | h10
          · exact h10
          · exact absurd hq (by have := Nat.div_le_div_right (c := 10) h10; omega)
        rw [hq, digitsLE_zero]
        exact ⟨(m + 1) % 10, rfl, by omega⟩
      · have hqf : (m + 1) / 10 ≤ f := by
          have := Nat.div_lt_self (Nat.succ_pos m) (by norm_num : 1 < 10)
          omega
        obtain ⟨d, hd, hd0⟩ := ih _ hqf hq
        refine ⟨d, ?_, hd0⟩
        cases hrest : digitsLE f ((m + 1) / 10) with
        | nil => rw [hrest] at hd; simp at hd
        | cons x xs => rw [hrest] at hd; rw [List.getLast?_cons_cons, hd]

theorem fromisoformat_isoformat (t : Nat) : fromisoformat (isoformat t) = some t := by
  rw [isoformat, fromisoformat, if_pos, List.reverse_reverse, ofDigitsLE_digitsLE t t le_rfl]
  constructor
  · intro d hd
    exact digitsLE_all_lt t t d (List.mem_reverse.mp hd)
  · rw [List.head?_reverse]
    rcases Nat.eq_zero_or_pos t with ht | ht
    · subst ht; rw [digitsLE_zero]; simp
    · obtain ⟨d, hd, hd0⟩ := digitsLE_getLast? t t le_rfl (by omega)
      rw [hd]
      simp [hd0]

/-! ### Dict lemmas -/

theorem dget_dset_self (r : Rec) (k : String) (v : JVal) :
    dget (dset r k v) k = some v := by
  induction r with
  | nil => simp [dset, dget]
  | cons p rest ih =>
    obtain ⟨k', u⟩ := p
    rw [dset]
    by_cases hk : k' = k
    · rw [if_pos hk, dget, if_pos rfl]
    · rw [if_neg hk, dget, if_neg hk]
      exact ih

theorem dget_dset_ne (r : Rec) (k k' : String) (v : JVal) (h : k' ≠ k) :
    dget (dset r k v) k' = dget r k' := by
  induction r with
  | nil => simp [dset, dget, if_neg (Ne.symm h)]
  | cons p rest ih =>
    obtain ⟨k'', u⟩ := p
    rw [dset]
    by_cases hk : k'' = k
    · rw [if_pos hk, dget, dget, if_neg (Ne.symm h), if_neg]
      rw [hk]
      exact Ne.symm h
    · rw [if_neg hk, dget, dget]
      by_cases hk' : k'' = k'
      · simp [hk']
      · rw [if_neg hk', if_neg hk']
        exact ih

theorem dget_ddel_self (r : Rec) (k : String) : dget (ddel r k) k = none := by
  induction r with
  | nil => rfl
  | cons p rest ih =>
    obtain ⟨k', v⟩ := p
    rw [ddel]
    by_cases hk : k' = k
    · rw [if_pos hk]; exact ih
    · rw [if_neg hk, dget, if_neg hk]; exact ih

theorem dget_ddel_ne (r : Rec) (k k' : String) (h : k' ≠ k) :
    dget (ddel r k) k' = dget r k' := by
  induction r with
  | nil => rfl
  | cons p rest ih =>
    obtain ⟨k'', v⟩ := p
    rw [ddel]
    by_cases hk : k'' = k
    · rw [if_pos hk, dget, if_neg (by rw [hk]; exact Ne.symm h)]
      exact ih
    · rw [if_neg hk, dget, dget]
      by_cases hk' : k'' = k'
      · simp [hk']
      · rw [if_neg hk', if_neg hk']
        exact ih

theorem ddel_of_dget_none {r : Rec} {k : String} (h : dget r k = none) :
    ddel r k = r := by
  induction r with
  | nil => rfl
  | cons p rest ih =>
    obtain ⟨k', v⟩ := p
    rw [dget] at h
    by_cases hk : k' = k
    · simp [hk] at h
    · rw [ddel, if_neg hk, ih (by simpa [hk] using h)]

theorem ddel_ddel (r : Rec) (k : String) : ddel (ddel r k) k = ddel r k :=
  ddel_of_dget_none (dget_ddel_self r k)

/-! ### Behaviour of `_is_locked_out` -/

theorem roll_dice_eq_false_iff (sample : ℚ) :
    roll_dice sample = false ↔ DOOM_PROBABILITY ≤ sample := by
  simp [roll_dice, not_lt]

/-- Inversion of the active-lockout branch of `_is_locked_out`: an active
result means the stored value parsed to a future expiry and the file was left
untouched. -/
theorem is_locked_out_active {now lu : Nat} {fs fs₂ : FileContent}
    (h : is_locked_out now fs = .ok (some lu, fs₂)) :
    fs₂ = fs ∧ now < lu ∧
      ∃ s, dget (load_state fs) "locked_until" = some (.str s) ∧
        fromisoformat s = some lu := by
  rw [is_locked_out] at h
  split at h
  · simp at h
  · rename_i s hdg
    split at h
    · simp at h
    · rename_i t hfi
      split at h
      · rename_i hlt
        simp only [Except.ok.injEq, Prod.mk.injEq, Option.some.injEq] at h
        obtain ⟨hlu, hfs⟩ := h
        exact ⟨hfs.symm, by omega, s, hdg, by rw [hfi, hlu]⟩
      · simp at h
  · simp at h

theorem is_locked_out_of_future {now lu : Nat} {fs : FileContent} {s : List Nat}
    (hdg : dget (load_state fs) "locked_until" = some (.str s))
    (hfi : fromisoformat s = some lu) (hlt : now < lu) :
    is_locked_out now fs = .ok (some lu, fs) := by
  rw [is_locked_out, hdg]
  simp only [hfi, if_pos hlt]

/-- After `_set_lockout` at time `now`, the stored lockout reads back as the
active expiry `now + 24h`. -/
theorem is_locked_out_set_lockout (now : Nat) (fs : FileContent) :
    is_locked_out now (set_lockout now fs).2 =
      .ok (some (now + hours24), (set_lockout now fs).2) := by
  have hdg : dget (load_state (set_lockout now fs).2) "locked_until" =
      some (.str (isoformat (now + hours24))) :=
    dget_dset_self (load_state fs) "locked_until" _
  exact is_locked_out_of_future hdg (fromisoformat_isoformat (now + hours24))
    (by norm_num [hours24])

/-! ### The claims -/

/-- Claim C1: with no active lockout, `consult_oracle` draws one uniform
sample and returns allow exactly when the sample is at least
`DOOM_PROBABILITY` (0.42); on allow no lockout is installed (the state file is
exactly what the lockout check left) and the provider is never consulted. -/
theorem consult_oracle_no_lockout (now : Nat) (sample : ℚ) (qidx : Nat)
    (ask : String → Except String String) (fs fs₁ : FileContent)
    (h : is_locked_out now fs = .ok (none, fs₁)) :
    ∃ r, consult_oracle now sample qidx ask fs = .ok r ∧
      r.rolled = true ∧
      (r.allowed = true ↔ DOOM_PROBABILITY ≤ sample) ∧
      (r.allowed = true →
        r.file = fs₁ ∧ r.asked = false ∧ r.lockedUntil = none) := by
  rw [consult_oracle, h]
  by_cases hs : DOOM_PROBABILITY ≤ sample
  · have hd : roll_dice sample = false := (roll_dice_eq_false_iff sample).mpr hs
    rw [hd]
    exact ⟨_, rfl, rfl, by simpa using hs, fun _ => ⟨rfl, rfl, rfl⟩⟩
  · have hd : roll_dice sample = true := by
      simp only [roll_dice, decide_eq_true_eq]
      exact not_le.mp hs
    rw [hd]
    refine ⟨_, rfl, rfl, ?_, ?_⟩
    · simpa using hs
    · intro hc
      simp at hc

/-- Claim C2: an active lockout makes `consult_oracle` deny immediately: the
state file is not written by the check, no dice are rolled, the provider is
never invoked, and any repeated call within the lockout window returns the
identical result. -/
theorem consult_oracle_locked (now now' : Nat) (sample sample' : ℚ)
    (qidx qidx' : Nat) (ask ask' : String → Except String String)
    (fs fs₂ : FileContent) (lu : Nat)
    (h : is_locked_out now fs = .ok (some lu, fs₂)) (hw : now' < lu) :
    fs₂ = fs ∧
    consult_oracle now sample qidx ask fs = .ok ⟨false, fs, false, false, none, none⟩ ∧
    consult_oracle now' sample' qidx' ask' fs = .ok ⟨false, fs, false, false, none, none⟩ := by
  obtain ⟨hfs, _, s, hdg, hfi⟩ := is_locked_out_active h
  subst hfs
  refine ⟨rfl, ?_, ?_⟩
  · rw [consult_oracle, h]
  · rw [consult_oracle, is_locked_out_of_future hdg hfi hw]

/-- Claim C3: on the FAIL branch a raising provider is caught: the answer is
the placeholder embedding the error message, the 24-hour lockout is still
installed, and the gate still returns deny (never re-raising the provider
error). -/
theorem consult_oracle_provider_failure (now : Nat) (sample : ℚ) (qidx : Nat)
    (ask : String → Except String String) (fs fs₁ : FileContent) (e : String)
    (h : is_locked_out now fs = .ok (none, fs₁))
    (hs : sample < DOOM_PROBABILITY)
    (he : ask (LAZY_QUESTIONS.getD (qidx % LAZY_QUESTIONS.length) "") = .error e) :
    consult_oracle now sample qidx ask fs =
      .ok ⟨false, (set_lockout now fs₁).2, true, true,
        some ("[The AI was also having a bad day: " ++ e ++ "]"),
        some (now + hours24)⟩ ∧
    is_locked_out now (set_lockout now fs₁).2 =
      .ok (some (now + hours24), (set_lockout now fs₁).2) := by
  constructor
  · have hd : roll_dice sample = true := by simp [roll_dice, hs]
    rw [consult_oracle, h]
    simp only [hd, he]
    rfl
  · exact is_locked_out_set_lockout now fs₁

/-- Claim C4: `setLockout` returns exactly `now + 24h`, persists it under
`locked_until`, and an immediately subsequent `isLockedOut` returns that same
timestamp — the value round-trips exactly through serialization and parsing. -/
theorem set_lockout_roundtrip (now : Nat) (fs : FileContent) :
    (set_lockout now fs).1 = now + hours24 ∧
    dget (load_state (set_lockout now fs).2) "locked_until" =
      some (.str (isoformat (now + hours24))) ∧
    is_locked_out now (set_lockout now fs).2 =
      .ok (some (now + hours24), (set_lockout now fs).2) := by
  refine ⟨rfl, ?_, ?_⟩
  · exact dget_dset_self (load_state fs) "locked_until" _
  · exact is_locked_out_set_lockout now fs

/-- A record without a `locked_until` key is never locked out and the check
writes nothing. -/
theorem is_locked_out_no_key {now : Nat} {fs : FileContent}
    (h0 : dget (load_state fs) "locked_until" = none) :
    is_locked_out now fs = .ok (none, fs) := by
  rw [is_locked_out, h0]

/-- Claim C5: an expired lockout is lazily removed: `isLockedOut` reports not
locked, the persisted record no longer has the key, and a second call yields
the same result while writing nothing further (the file is returned as-is). -/
theorem is_locked_out_expired (now lu : Nat) (fs : FileContent) (s : List Nat)
    (hdg : dget (load_state fs) "locked_until" = some (.str s))
    (hfi : fromisoformat s = some lu) (hle : lu ≤ now) :
    is_locked_out now fs =
      .ok (none, .json (ddel (load_state fs) "locked_until")) ∧
    dget (ddel (load_state fs) "locked_until") "locked_until" = none ∧
    is_locked_out now (.json (ddel (load_state fs) "locked_until")) =
      .ok (none, .json (ddel (load_state fs) "locked_until")) := by
  refine ⟨?_, dget_ddel_self _ _, ?_⟩
  · rw [is_locked_out, hdg]
    simp only [hfi, if_neg (by omega : ¬ now < lu)]
  · exact is_locked_out_no_key (dget_ddel_self _ _)

/-- Claim C6: `clearLockout` removes the key and persists, is idempotent, is
a record-level no-op when the key is absent, and is always followed by a
not-locked `isLockedOut`, whatever the prior state. -/
theorem clear_lockout_spec (now : Nat) (fs : FileContent) :
    dget (load_state (clear_lockout fs)) "locked_until" = none ∧
    clear_lockout (clear_lockout fs) = clear_lockout fs ∧
    is_locked_out now (clear_lockout fs) = .ok (none, clear_lockout fs) ∧
    (dget (load_state fs) "locked_until" = none →
      load_state (clear_lockout fs) = load_state fs) := by
  refine ⟨dget_ddel_self _ _, ?_, is_locked_out_no_key (dget_ddel_self _ _), ?_⟩
  · show FileContent.json (ddel (ddel (load_state fs) "locked_until") "locked_until") = _
    rw [ddel_ddel]
    rfl
  · intro h0
    show ddel (load_state fs) "locked_until" = load_state fs
    exact ddel_of_dget_none h0

/-- Provider kinds recognized by `build_provider` (after lowercasing). -/
def recognizedKinds : List String :=
  ["ollama", "lmstudio", "lm_studio", "lm-studio", "openai", "chatgpt",
   "claude", "anthropic", "offline", "none", ""]

/-- Kinds naming a cloud backend, which require a credential. -/
def cloudKinds : List String :=
  ["openai", "chatgpt", "claude", "anthropic"]

/-- Claim C7: `build_provider` raises exactly when a cloud kind is requested
without a (truthy) credential or when the lowered kind string is
unrecognized — and the unrecognized-kind error lists the recognized set;
`offline`, `none` and the empty string always yield the offline provider. -/
theorem build_provider_spec (p : String) (key burl mdl : Option String) :
    ((∃ e, build_provider p key burl mdl = .error e) ↔
      ((pyLower p ∈ cloudKinds ∧ strTruthy key = false) ∨
        pyLower p ∉ recognizedKinds)) ∧
    build_provider "offline" key burl mdl = .ok .offline ∧
    build_provider "none" key burl mdl = .ok .offline ∧
    build_provider "" key burl mdl = .ok .offline ∧
    (pyLower p ∉ recognizedKinds →
      build_provider p key burl mdl = .error
        ("Unknown AI provider: \x27" ++ p ++
          "\x27. Choose from: ollama, lmstudio, openai/chatgpt, claude/anthropic, offline")) := by
  refine ⟨?_, rfl, rfl, rfl, ?_⟩
  · simp only [build_provider]
    split_ifs with h1 h2 h3 h4 h5 h6 <;>
      simp_all [cloudKinds, recognizedKinds] <;>
      aesop
  · intro hur
    simp only [recognizedKinds, List.mem_cons, List.mem_singleton] at hur
    push_neg at hur
    obtain ⟨n1, n2, n3, n4, n5, n6, n7, n8, n9, n10, n11⟩ := hur
    simp only [build_provider]
    rw [if_neg n1, if_neg (by tauto), if_neg (by tauto), if_neg (by tauto),
      if_neg (by tauto)]

/-- Claim C8: every mutation (`setLockout`, `clearLockout`, lazy expiry inside
`isLockedOut`) preserves every key other than `locked_until`, and a record
holding only unknown keys never makes the lockout check raise. -/
theorem state_ops_frame (now : Nat) (fs : FileContent) (k : String)
    (hk : k ≠ "locked_until") :
    dget (load_state (set_lockout now fs).2) k = dget (load_state fs) k ∧
    dget (load_state (clear_lockout fs)) k = dget (load_state fs) k ∧
    (∀ res fs₂, is_locked_out now fs = .ok (res, fs₂) →
      dget (load_state fs₂) k = dget (load_state fs) k) ∧
    (dget (load_state fs) "locked_until" = none →
      is_locked_out now fs = .ok (none, fs)) := by
  refine ⟨dget_dset_ne _ _ _ _ hk, dget_ddel_ne _ _ _ hk, ?_,
    fun h0 => is_locked_out_no_key h0⟩
  intro res fs₂ h
  rw [is_locked_out] at h
  split at h
  · simp only [Except.ok.injEq, Prod.mk.injEq] at h
    rw [← h.2]
  · split at h
    · simp at h
    · split at h
      · simp only [Except.ok.injEq, Prod.mk.injEq] at h
        rw [← h.2]
      · simp only [Except.ok.injEq, Prod.mk.injEq] at h
        rw [← h.2]
        exact dget_ddel_ne _ _ _ hk
  · simp at h

/-- Claim C9: a state file that is valid JSON but stores a `locked_until`
value that is not a well-formed timestamp makes `isLockedOut` (and hence
`consult_oracle`) raise, while the read-failure tolerance covers only the
JSON-parse failure case (an unparsable file reads as empty state). -/
theorem bad_timestamp_raises :
    (∀ now, is_locked_out now (.json [("locked_until", .str [10])]) =
      .error "ValueError: invalid isoformat string") ∧
    (∀ now sample qidx ask,
      consult_oracle now sample qidx ask (.json [("locked_until", .str [10])]) =
        .error "ValueError: invalid isoformat string") ∧
    (∀ now, is_locked_out now .corrupt = .ok (none, .corrupt)) :=
  ⟨fun _ => rfl, fun _ _ _ _ => rfl, fun _ => rfl⟩

/-- Claim C10: the offline provider is total and question-independent: every
call returns one of the eight canned answers (no I/O, no exception — the
model is a plain function into `String`), and the answer depends only on the
random-source state, never on the question. -/
theorem offline_ask_total :
    CANNED_ANSWERS.length = 8 ∧
    (∀ ridx q, offline_ask ridx q ∈ CANNED_ANSWERS) ∧
    (∀ ridx q₁ q₂, offline_ask ridx q₁ = offline_ask ridx q₂) := by
  refine ⟨rfl, fun ridx q => ?_, fun _ _ _ => rfl⟩
  have hlt : ridx % CANNED_ANSWERS.length < CANNED_ANSWERS.length :=
    Nat.mod_lt _ (by simp [CANNED_ANSWERS])
  rw [offline_ask, List.getD_eq_getElem?_getD, List.getElem?_eq_getElem hlt,
    Option.getD_some]
  exact List.getElem_mem hlt

/-! ### Concrete witnesses -/

/-- Witness for C1: no prior state, sample `1/2` ≥ 0.42. -/
theorem consult_oracle_no_lockout_witness :
    is_locked_out 0 FileContent.absent = .ok (none, .absent) ∧
    (∃ r, consult_oracle 0 (1/2) 0 (fun _ => .ok "hi") .absent = .ok r ∧
      r.rolled = true ∧
      (r.allowed = true ↔ DOOM_PROBABILITY ≤ (1/2 : ℚ)) ∧
      (r.allowed = true →
        r.file = FileContent.absent ∧ r.asked = false ∧ r.lockedUntil = none)) :=
  ⟨by decide,
    consult_oracle_no_lockout 0 (1/2) 0 (fun _ => .ok "hi") .absent .absent (by decide)⟩

/-- Witness for C2: a stored lockout expiring at tick 5, consulted at ticks 0
and 1. -/
theorem consult_oracle_locked_witness :
    is_locked_out 0 (.json [("locked_until", .str (isoformat 5))]) =
      .ok (some 5, .json [("locked_until", .str (isoformat 5))]) ∧
    (1 : Nat) < 5 ∧
    (FileContent.json [("locked_until", .str (isoformat 5))] =
        .json [("locked_until", .str (isoformat 5))] ∧
      consult_oracle 0 (1/2) 0 (fun _ => .ok "hi")
          (.json [("locked_until", .str (isoformat 5))]) =
        .ok ⟨false, .json [("locked_until", .str (isoformat 5))],
          false, false, none, none⟩ ∧
      consult_oracle 1 (2/3) 1 (fun _ => .ok "yo")
          (.json [("locked_until", .str (isoformat 5))]) =
        .ok ⟨false, .json [("locked_until", .str (isoformat 5))],
          false, false, none, none⟩) :=
  ⟨by decide, by decide,
    consult_oracle_locked 0 1 (1/2) (2/3) 0 1 (fun _ => .ok "hi") (fun _ => .ok "yo")
      (.json [("locked_until", .str (isoformat 5))])
      (.json [("locked_until", .str (isoformat 5))]) 5 (by decide) (by decide)⟩

/-- Witness for C3: no prior state, sample `1/10` < 0.42, provider raising
`boom`. -/
theorem consult_oracle_provider_failure_witness :
    is_locked_out 0 FileContent.absent = .ok (none, .absent) ∧
    (1/10 : ℚ) < DOOM_PROBABILITY ∧
    (consult_oracle 0 (1/10) 0 (fun _ => .error "boom") .absent =
        .ok ⟨false, (set_lockout 0 .absent).2, true, true,
          some ("[The AI was also having a bad day: " ++ "boom" ++ "]"),
          some (0 + hours24)⟩ ∧
      is_locked_out 0 (set_lockout 0 .absent).2 =
        .ok (some (0 + hours24), (set_lockout 0 .absent).2)) :=
  ⟨by decide, by norm_num [DOOM_PROBABILITY],
    consult_oracle_provider_failure 0 (1/10) 0 (fun _ => .error "boom")
      .absent .absent "boom" (by decide) (by norm_num [DOOM_PROBABILITY]) rfl⟩

/-- Witness for C5: a lockout that expired at tick 5, checked at tick 10. -/
theorem is_locked_out_expired_witness :
    dget (load_state (.json [("locked_until", .str (isoformat 5))])) "locked_until" =
      some (.str (isoformat 5)) ∧
    fromisoformat (isoformat 5) = some 5 ∧
    (5 : Nat) ≤ 10 ∧
    (is_locked_out 10 (.json [("locked_until", .str (isoformat 5))]) =
        .ok (none, .json (ddel (load_state
          (.json [("locked_until", .str (isoformat 5))])) "locked_until")) ∧
      dget (ddel (load_state (.json [("locked_until", .str (isoformat 5))]))
          "locked_until") "locked_until" = none ∧
      is_locked_out 10 (.json (ddel (load_state
          (.json [("locked_until", .str (isoformat 5))])) "locked_until")) =
        .ok (none, .json (ddel (load_state
          (.json [("locked_until", .str (isoformat 5))])) "locked_until"))) :=
  ⟨rfl, by decide, by decide,
    is_locked_out_expired 10 5 (.json [("locked_until", .str (isoformat 5))])
      (isoformat 5) rfl (by decide) (by decide)⟩

/-- Witness for C6: clearing with no state file at all, with the record-level
no-op hypothesis discharged concretely. -/
theorem clear_lockout_spec_witness :
    load_state (clear_lockout FileContent.absent) = load_state FileContent.absent ∧
    is_locked_out 3 (clear_lockout FileContent.absent) =
      .ok (none, clear_lockout FileContent.absent) :=
  ⟨(clear_lockout_spec 3 .absent).2.2.2 (by decide),
   (clear_lockout_spec 3 .absent).2.2.1⟩

/-- Witness for C7: an unrecognized kind and the offline kind, both with no
credential. -/
theorem build_provider_spec_witness :
    build_provider "offline" none none none = .ok .offline ∧
    build_provider "weird" none none none = .error
      ("Unknown AI provider: \x27" ++ "weird" ++
        "\x27. Choose from: ollama, lmstudio, openai/chatgpt, claude/anthropic, offline") :=
  ⟨(build_provider_spec "weird" none none none).2.1,
   (build_provider_spec "weird" none none none).2.2.2.2 (by decide)⟩

/-- Witness for C8: a record holding only the unknown key `other`. -/
theorem state_ops_frame_witness :
    ("other" : String) ≠ "locked_until" ∧
    (dget (load_state (set_lockout 2 (.json [("other", .other 7)])).2) "other" =
        dget (load_state (FileContent.json [("other", .other 7)])) "other" ∧
      dget (load_state (clear_lockout (.json [("other", .other 7)]))) "other" =
        dget (load_state (FileContent.json [("other", .other 7)])) "other" ∧
      (∀ res fs₂, is_locked_out 2 (.json [("other", .other 7)]) = .ok (res, fs₂) →
        dget (load_state fs₂) "other" =
          dget (load_state (FileContent.json [("other", .other 7)])) "other") ∧
      (dget (load_state (FileContent.json [("other", .other 7)])) "locked_until" = none →
        is_locked_out 2 (.json [("other", .other 7)]) =
          .ok (none, .json [("other", .other 7)]))) :=
  ⟨by decide, state_ops_frame 2 (.json [("other", .other 7)]) "other" (by decide)⟩

end RedTeamOracle
